import Mathlib

/-!
Verification development for the Twitter mention sentiment pipeline
(`twitter_client.py`, `gemini_analyzer.py`, `main.py`).

The repository is a sequential orchestration script.  We embed it shallowly:

* Python strings are Lean `String`s; `str.strip`, `str.lower` and the
  substring test `pat in s` are modelled by executable functions below
  (`pyStrip`, `pyLower`, `pyIn`), with `lower` given as the explicit
  ASCII case table (the only characters the pipeline's keyword tests use).
* The Twitter search endpoint is an oracle returning a `SearchOutcome`:
  a page, a raised `tweepy.TweepyException`, or any other raised
  exception.  The two Tweepy handlers in `twitter_client.py` dereference
  the local `response`, which is unbound when the search call itself
  raised, so a `TweepyException` turns into an `UnboundLocalError` that
  propagates out of the wrapper; only the generic handlers recover to
  the empty list.  A propagating exception is an `Except.error`.
* The Gemini classifier is an oracle whose raised exceptions are all
  caught inside `analyze_sentiment` (that handler touches no unbound
  local), so it is a plain `Except`.
* The driver `run_analysis` is a pure function of the `World` and the
  environment configuration, returning its outcome — including the
  crash outcome of an uncaught exception — together with the list of
  side effects it performed (search requests, mkdir, CSV write).
-/

/-! ## Python string primitives -/

/-- Python whitespace for `str.strip()` (the ASCII whitespace characters). -/
def pyIsSpace (c : Char) : Bool :=
  c == ' ' || c == '\t' || c == '\n' || c == '\r' || c == '\x0b' || c == '\x0c'

/-- ASCII case table for Python `str.lower()` (explicit, character by character). -/
def pyCharLower (c : Char) : Char :=
  match c with
  | 'A' => 'a' | 'B' => 'b' | 'C' => 'c' | 'D' => 'd' | 'E' => 'e' | 'F' => 'f'
  | 'G' => 'g' | 'H' => 'h' | 'I' => 'i' | 'J' => 'j' | 'K' => 'k' | 'L' => 'l'
  | 'M' => 'm' | 'N' => 'n' | 'O' => 'o' | 'P' => 'p' | 'Q' => 'q' | 'R' => 'r'
  | 'S' => 's' | 'T' => 't' | 'U' => 'u' | 'V' => 'v' | 'W' => 'w' | 'X' => 'x'
  | 'Y' => 'y' | 'Z' => 'z'
  | c => c

/-- Drop leading whitespace from a character list. -/
def dropWS : List Char → List Char
  | [] => []
  | c :: cs => if pyIsSpace c then dropWS cs else c :: cs

/-- Python `str.strip()` on the character list: drop leading and trailing whitespace. -/
def stripList (l : List Char) : List Char :=
  (dropWS ((dropWS l).reverse)).reverse

/-- Python `str.strip()`. -/
def pyStrip (s : String) : String :=
  String.mk (stripList s.data)

/-- Python `str.lower()`. -/
def pyLower (s : String) : String :=
  String.mk (s.data.map pyCharLower)

/-- Does `pat` occur as a prefix of `s` (character lists)? -/
def isPrefixList : List Char → List Char → Bool
  | [], _ => true
  | _ :: _, [] => false
  | p :: ps, c :: cs => p == c && isPrefixList ps cs

/-- Does `pat` occur as a contiguous sublist of `s` (character lists)? -/
def containsList (pat : List Char) : List Char → Bool
  | [] => pat.isEmpty
  | c :: cs => isPrefixList pat (c :: cs) || containsList pat cs

/-- Python substring test `pat in s`. -/
def pyIn (pat s : String) : Bool :=
  containsList pat.data s.data

/-! ## Data model -/

/-- A tweet as returned by the search endpoint (the fields the pipeline reads). -/
structure Tweet where
  id : String
  text : String
  author_id : String
  conversation_id : String
  created_at : String
deriving DecidableEq

/-- One output row assembled by the driver (`main.run_analysis`). -/
structure AnalyzedRow where
  mention_tweet_id : String
  mention_tweet_text : String
  comment_id : String
  comment_text : String
  comment_author_id : String
  comment_created_at : String
  sentiment : String
deriving DecidableEq

/-- Environment configuration read by `main.py`: `TWITTER_QUERY`,
`MAX_MENTIONS_TO_FETCH`, `MAX_COMMENTS_PER_MENTION` (each possibly absent,
the numeric ones already parsed by Python `int`). -/
structure Env where
  twitterQuery : Option String
  maxMentionsToFetch : Option Int
  maxCommentsPerMention : Option Int
deriving DecidableEq

/-- Observable side effects of one run: search requests sent to the Source,
and filesystem operations of the Persist step. -/
inductive Effect where
  | searchRequest (query : String) (max_results : Int)
  | mkdir (path : String)
  | writeCsv (path : String) (rows : List AnalyzedRow)
deriving DecidableEq

/-- Filesystem effects (the Persist step's `os.makedirs` and `df.to_csv`). -/
def Effect.isFsEffect : Effect → Bool
  | .searchRequest _ _ => false
  | .mkdir _ => true
  | .writeCsv _ _ => true

/-- How one `search_recent_tweets` call comes back, as the wrappers observe
it: a page (`response.data`, with `None` folded into the empty list), a
raised `tweepy.TweepyException` (typed transport/auth failures: 401, 429,
5xx), or any other raised exception. -/
inductive SearchOutcome where
  | ok (data : List Tweet)
  | tweepyExc (message : String)
  | otherExc (message : String)
deriving DecidableEq

/-- Is the outcome a raised `tweepy.TweepyException`? -/
def tweepyCrash : SearchOutcome → Bool
  | .tweepyExc _ => true
  | _ => false

/-- The external world: the Twitter search oracle, the Gemini classify
oracle (raised exceptions are `Except.error`), whether the `data`
directory already exists, and the outcome `df.to_csv` would have (an
`IOError` is `Except.error`). -/
structure World where
  search : String → Int → SearchOutcome
  classify : String → Except String String
  dataDirExists : Bool
  writeResult : Except String Unit

/-! ## gemini_analyzer.py -/

/-- Keyword normalization branch of `GeminiAnalyzer.analyze_sentiment`,
applied to `response.text.strip().lower()` (transcribed from the source). -/
def normalizeSentiment (sentiment : String) : String :=
  if pyIn "positive" sentiment && !(pyIn "negative" sentiment) then "positive"
  else if pyIn "negative" sentiment && !(pyIn "positive" sentiment) then "negative"
  else if pyIn "neutral" sentiment then "neutral"
  else if sentiment == "positive" || sentiment == "negative" || sentiment == "neutral" then
    sentiment
  else "neutral"

/-- `GeminiAnalyzer.analyze_sentiment`: any exception raised by
`generate_content` yields the string `"error"` (this handler references no
unbound local, so it really returns); otherwise the raw model output is
stripped, lowercased and normalized. -/
def analyze_sentiment (result : Except String String) : String :=
  match result with
  | .ok raw => normalizeSentiment (pyLower (pyStrip raw))
  | .error _ => "error"

/-- Spec section 4.2, transcribed from the spec's words: lowercase and trim
the raw string, then the ordered first-match keyword algorithm (steps 2-6).
Used only to compare against `analyze_sentiment` for the refinement claim. -/
def specNormalizeSentiment (raw : String) : String :=
  let s := pyStrip (pyLower raw)
  if pyIn "positive" s && !(pyIn "negative" s) then "positive"
  else if pyIn "negative" s && !(pyIn "positive" s) then "negative"
  else if pyIn "neutral" s then "neutral"
  else if s == "positive" || s == "negative" || s == "neutral" then s
  else "neutral"

/-! ## twitter_client.py -/

/-- The exception both `except tweepy.TweepyException` handlers actually
raise: they evaluate `if response and response.errors` while the local
`response` is still unbound (it is assigned only by the search call that
just raised), so the handler crashes before reaching its `return []` and
the new exception propagates out of the method. -/
def unboundLocalResponse : String :=
  "UnboundLocalError: local variable response referenced before assignment"

/-- `TwitterClient.get_mentions`: one search request.  A returned page is
passed through (empty `response.data` becomes the empty list).  A raised
`tweepy.TweepyException` enters the first handler, which dereferences the
unbound local `response` and raises `UnboundLocalError` — an exception
raised inside an `except` block is not caught by the sibling handler, so
it propagates to the caller.  Any other raised exception reaches the
generic handler, which does return the empty list. -/
def get_mentions (w : World) (query : String) (max_results : Int) :
    Except String (List Tweet) × List Effect :=
  match w.search query max_results with
  | .ok mentioning_tweets =>
      (Except.ok mentioning_tweets, [Effect.searchRequest query max_results])
  | .tweepyExc _ =>
      (Except.error unboundLocalResponse, [Effect.searchRequest query max_results])
  | .otherExc _ =>
      (Except.ok [], [Effect.searchRequest query max_results])

/-- Query string built by `get_comments_on_tweet`: conversation scoped,
excluding the original tweet's author at the query level. -/
def replyQuery (conversation_id original_tweet_author_id : String) : String :=
  "conversation_id:" ++ conversation_id ++ " -from:" ++ original_tweet_author_id

/-- The reply-filter loop of `get_comments_on_tweet`: walk the page in order,
appending every reply whose id differs from the target tweet's id. -/
def replyFilter (tweet_id : String) (candidates : List Tweet) : List Tweet :=
  candidates.foldl (fun acc reply => if reply.id != tweet_id then acc ++ [reply] else acc) []

/-- `TwitterClient.get_comments_on_tweet`: one conversation search request,
then the reply filter.  Its exception handlers mirror `get_mentions` and
share the same slip: a raised `tweepy.TweepyException` becomes a
propagating `UnboundLocalError` (the handler reads the unbound local
`response`), while any other raised exception is recovered to the empty
list by the generic handler. -/
def get_comments_on_tweet (w : World) (tweet_id conversation_id
    original_tweet_author_id : String) (max_results : Int) :
    Except String (List Tweet) × List Effect :=
  let q := replyQuery conversation_id original_tweet_author_id
  match w.search q max_results with
  | .ok all_replies_in_conversation =>
      (Except.ok (replyFilter tweet_id all_replies_in_conversation),
        [Effect.searchRequest q max_results])
  | .tweepyExc _ =>
      (Except.error unboundLocalResponse, [Effect.searchRequest q max_results])
  | .otherExc _ =>
      (Except.ok [], [Effect.searchRequest q max_results])

/-! ## main.py -/

/-- `TWITTER_SEARCH_QUERY = os.environ.get('TWITTER_QUERY', '@GulfAir -is:retweet')`. -/
def TWITTER_SEARCH_QUERY (env : Env) : String :=
  env.twitterQuery.getD "@GulfAir -is:retweet"

/-- `MAX_MENTIONS_TO_FETCH = int(os.environ.get('MAX_MENTIONS_TO_FETCH', 5))`. -/
def MAX_MENTIONS_TO_FETCH (env : Env) : Int :=
  env.maxMentionsToFetch.getD 5

/-- `MAX_COMMENTS_PER_MENTION = int(os.environ.get('MAX_COMMENTS_PER_MENTION', 10))`. -/
def MAX_COMMENTS_PER_MENTION (env : Env) : Int :=
  env.maxCommentsPerMention.getD 10

/-- `OUTPUT_CSV_FILE` of `main.py`. -/
def OUTPUT_CSV_FILE : String :=
  "data/bahrain_airport_comment_sentiments.csv"

/-- The dictionary appended to `all_analyzed_comments` for one comment. -/
def analyzeComment (w : World) (mention comment : Tweet) : AnalyzedRow where
  mention_tweet_id := mention.id
  mention_tweet_text := mention.text
  comment_id := comment.id
  comment_text := comment.text
  comment_author_id := comment.author_id
  comment_created_at := comment.created_at
  sentiment := analyze_sentiment (w.classify comment.text)

/-- Body of the driver's per-mention loop: fetch the comment page for one
mention; an exception propagating out of the fetch propagates here too
(the driver wraps the calls in no `try`); otherwise build one row per
surviving comment. -/
def processMention (w : World) (env : Env) (mention : Tweet) :
    Except String (List AnalyzedRow) × List Effect :=
  let fetched := get_comments_on_tweet w mention.id mention.conversation_id
      mention.author_id (MAX_COMMENTS_PER_MENTION env)
  match fetched.1 with
  | Except.error exc => (Except.error exc, fetched.2)
  | Except.ok comments => (Except.ok (comments.map (analyzeComment w mention)), fetched.2)

/-- The driver's `for mention in mentions:` loop: process mentions in
order, concatenating their rows; an exception propagating out of one
mention's fetch aborts the loop there (later mentions are never fetched,
earlier rows are lost with the traceback). -/
def processMentions (w : World) (env : Env) : List Tweet →
    Except String (List AnalyzedRow) × List Effect
  | [] => (Except.ok [], [])
  | m :: ms =>
      match processMention w env m with
      | (Except.error exc, effs) => (Except.error exc, effs)
      | (Except.ok rows, effs) =>
          match processMentions w env ms with
          | (Except.error exc, effs2) => (Except.error exc, effs ++ effs2)
          | (Except.ok rows2, effs2) => (Except.ok (rows ++ rows2), effs ++ effs2)

/-- Terminal outcomes of `run_analysis` (after successful client
construction): the early "no mentions" return, the "no comments were
analyzed" branch, a successful CSV save, the console fallback after a
failed save, or an abnormal abort by an uncaught exception propagating
out of a fetch. -/
inductive RunOutcome where
  | noMentions
  | noComments
  | savedToFile (rows : List AnalyzedRow)
  | shownOnConsole (rows : List AnalyzedRow)
  | crashed (exc : String)
deriving DecidableEq

/-- `main.run_analysis`, after client construction succeeded: fetch the
mention page (an exception propagating out of `get_mentions` aborts the
run — there is no surrounding `try`); if the page is empty, return early;
otherwise run the per-mention loop (an exception propagating out of a
comments fetch aborts the run mid-loop) and persist — creating the `data`
directory when absent, writing the CSV, and falling back to printing the
dataframe to the console when the write raises `IOError`. -/
def run_analysis (w : World) (env : Env) : RunOutcome × List Effect :=
  let fetchedMentions := get_mentions w (TWITTER_SEARCH_QUERY env) (MAX_MENTIONS_TO_FETCH env)
  match fetchedMentions.1 with
  | Except.error exc => (RunOutcome.crashed exc, fetchedMentions.2)
  | Except.ok mentions =>
      if mentions.isEmpty then (RunOutcome.noMentions, fetchedMentions.2)
      else
        match processMentions w env mentions with
        | (Except.error exc, fetchEffects) =>
            (RunOutcome.crashed exc, fetchedMentions.2 ++ fetchEffects)
        | (Except.ok all_analyzed_comments, fetchEffects) =>
            if all_analyzed_comments.isEmpty then
              (RunOutcome.noComments, fetchedMentions.2 ++ fetchEffects)
            else
              let dirEffs := if w.dataDirExists then [] else [Effect.mkdir "data"]
              match w.writeResult with
              | Except.ok _ =>
                  (RunOutcome.savedToFile all_analyzed_comments,
                    fetchedMentions.2 ++ fetchEffects ++ dirEffs
                      ++ [Effect.writeCsv OUTPUT_CSV_FILE all_analyzed_comments])
              | Except.error _ =>
                  (RunOutcome.shownOnConsole all_analyzed_comments,
                    fetchedMentions.2 ++ fetchEffects ++ dirEffs
                      ++ [Effect.writeCsv OUTPUT_CSV_FILE all_analyzed_comments])

/-- The mention page the driver iterates: the delivered page when the
mention fetch returns one (the generic handler's recovery included), and
empty when the fetch raised — in that case the run crashes before any
iteration. -/
def mentionsOf (w : World) (env : Env) : List Tweet :=
  match (get_mentions w (TWITTER_SEARCH_QUERY env) (MAX_MENTIONS_TO_FETCH env)).1 with
  | Except.ok mentions => mentions
  | Except.error _ => []

/-- The comment page the driver obtains for one mention when that fetch
returns one; empty when it raised (then the run crashes at this mention). -/
def commentsFor (w : World) (env : Env) (mention : Tweet) : List Tweet :=
  match (get_comments_on_tweet w mention.id mention.conversation_id
      mention.author_id (MAX_COMMENTS_PER_MENTION env)).1 with
  | Except.ok comments => comments
  | Except.error _ => []

/-- All rows the per-mention loop builds from the delivered pages.  When a
raised fetch aborts the run, the real loop builds only some of these and
persists none, so the rows any run ever emits are always among this list:
universal properties proved over it cover every emitted row. -/
def accumulatedRows (w : World) (env : Env) : List AnalyzedRow :=
  ((mentionsOf w env).map (fun m => (commentsFor w env m).map (analyzeComment w m))).flatten

/-- Does some search call of the run raise a `tweepy.TweepyException` (the
mention fetch, or the comments fetch of some mention on the page)?
Exactly these runs abort with the propagating `UnboundLocalError`. -/
def runHasFetchCrash (w : World) (env : Env) : Bool :=
  tweepyCrash (w.search (TWITTER_SEARCH_QUERY env) (MAX_MENTIONS_TO_FETCH env))
    || (mentionsOf w env).any
      (fun m => tweepyCrash (w.search (replyQuery m.conversation_id m.author_id)
        (MAX_COMMENTS_PER_MENTION env)))

/-! ## Helper lemmas -/

theorem pyIsSpace_pyCharLower (c : Char) : pyIsSpace (pyCharLower c) = pyIsSpace c := by
  unfold pyCharLower
  split <;> rfl

theorem dropWS_map_lower (l : List Char) :
    dropWS (l.map pyCharLower) = (dropWS l).map pyCharLower := by
  induction l with
  | nil => rfl
  | cons c cs ih =>
      by_cases h : pyIsSpace c
      · simp [dropWS, pyIsSpace_pyCharLower, h, ih]
      · simp [dropWS, pyIsSpace_pyCharLower, h]

theorem stripList_map_lower (l : List Char) :
    stripList (l.map pyCharLower) = (stripList l).map pyCharLower := by
  unfold stripList
  rw [dropWS_map_lower, ← List.map_reverse, dropWS_map_lower, List.map_reverse]

theorem pyStrip_pyLower (s : String) : pyStrip (pyLower s) = pyLower (pyStrip s) := by
  unfold pyStrip pyLower
  simp [stripList_map_lower]

theorem replyFilter_eq_filter (t : String) (c : List Tweet) :
    replyFilter t c = c.filter (fun r => r.id != t) := by
  suffices h : ∀ acc, c.foldl (fun acc reply => if reply.id != t then acc ++ [reply] else acc) acc
      = acc ++ c.filter (fun r => r.id != t) by
    simpa [replyFilter] using h []
  induction c with
  | nil => intro acc; simp
  | cons r rs ih =>
      intro acc
      rw [List.foldl_cons, List.filter_cons]
      by_cases h : (r.id != t) = true
      · rw [if_pos h, if_pos h, ih]
        simp
      · rw [if_neg h, if_neg h, ih]

theorem mem_replyFilter_iff (tweet_id : String) (candidates : List Tweet) (r : Tweet) :
    r ∈ replyFilter tweet_id candidates ↔ r ∈ candidates ∧ r.id ≠ tweet_id := by
  rw [replyFilter_eq_filter, List.mem_filter]
  simp [bne_iff_ne]

theorem get_mentions_snd (w : World) (q : String) (n : Int) :
    (get_mentions w q n).2 = [Effect.searchRequest q n] := by
  cases h : w.search q n <;> simp [get_mentions, h]

theorem get_comments_snd (w : World) (t conv a : String) (n : Int) :
    (get_comments_on_tweet w t conv a n).2 = [Effect.searchRequest (replyQuery conv a) n] := by
  cases h : w.search (replyQuery conv a) n <;> simp [get_comments_on_tweet, h]

theorem processMention_snd (w : World) (env : Env) (m : Tweet) :
    (processMention w env m).2
      = [Effect.searchRequest (replyQuery m.conversation_id m.author_id)
          (MAX_COMMENTS_PER_MENTION env)] := by
  cases h : w.search (replyQuery m.conversation_id m.author_id) (MAX_COMMENTS_PER_MENTION env)
    <;> simp [processMention, get_comments_on_tweet, h]

theorem processMention_eq_ok (w : World) (env : Env) (m : Tweet)
    (h : tweepyCrash (w.search (replyQuery m.conversation_id m.author_id)
      (MAX_COMMENTS_PER_MENTION env)) = false) :
    processMention w env m
      = (Except.ok ((commentsFor w env m).map (analyzeComment w m)),
         [Effect.searchRequest (replyQuery m.conversation_id m.author_id)
           (MAX_COMMENTS_PER_MENTION env)]) := by
  cases hs : w.search (replyQuery m.conversation_id m.author_id) (MAX_COMMENTS_PER_MENTION env) with
  | ok page => simp [processMention, get_comments_on_tweet, commentsFor, hs]
  | tweepyExc msg => rw [hs] at h; simp [tweepyCrash] at h
  | otherExc msg => simp [processMention, get_comments_on_tweet, commentsFor, hs]

theorem processMention_eq_crash (w : World) (env : Env) (m : Tweet) (msg : String)
    (h : w.search (replyQuery m.conversation_id m.author_id)
      (MAX_COMMENTS_PER_MENTION env) = SearchOutcome.tweepyExc msg) :
    processMention w env m
      = (Except.error unboundLocalResponse,
         [Effect.searchRequest (replyQuery m.conversation_id m.author_id)
           (MAX_COMMENTS_PER_MENTION env)]) := by
  simp [processMention, get_comments_on_tweet, h]

theorem processMentions_no_crash (w : World) (env : Env) (ms : List Tweet)
    (h : ∀ m ∈ ms, tweepyCrash (w.search (replyQuery m.conversation_id m.author_id)
      (MAX_COMMENTS_PER_MENTION env)) = false) :
    processMentions w env ms
      = (Except.ok ((ms.map (fun m => (commentsFor w env m).map (analyzeComment w m))).flatten),
         ms.map (fun m => Effect.searchRequest (replyQuery m.conversation_id m.author_id)
           (MAX_COMMENTS_PER_MENTION env))) := by
  induction ms with
  | nil => simp [processMentions]
  | cons m ms ih =>
      have hm := h m (List.mem_cons_self m ms)
      have hms := ih (fun x hx => h x (List.mem_cons_of_mem m hx))
      rw [processMentions, processMention_eq_ok w env m hm, hms]
      simp

theorem mem_processMentions_effects (w : World) (env : Env) :
    ∀ (ms : List Tweet) (e : Effect), e ∈ (processMentions w env ms).2 →
      ∃ m ∈ ms, e ∈ (processMention w env m).2 := by
  intro ms
  induction ms with
  | nil => intro e he; simp [processMentions] at he
  | cons m ms ih =>
      intro e he
      rw [processMentions] at he
      split at he
      next exc effs heq =>
        refine ⟨m, List.mem_cons_self m ms, ?_⟩
        rw [heq]
        exact he
      next rows effs heq =>
        split at he
        next exc2 effs2 heq2 =>
          simp only at he
          rcases List.mem_append.1 he with h1 | h1
          · refine ⟨m, List.mem_cons_self m ms, ?_⟩
            rw [heq]
            exact h1
          · rcases ih e (by rw [heq2]; exact h1) with ⟨m2, hm2, hmem⟩
            exact ⟨m2, List.mem_cons_of_mem m hm2, hmem⟩
        next rows2 effs2 heq2 =>
          simp only at he
          rcases List.mem_append.1 he with h1 | h1
          · refine ⟨m, List.mem_cons_self m ms, ?_⟩
            rw [heq]
            exact h1
          · rcases ih e (by rw [heq2]; exact h1) with ⟨m2, hm2, hmem⟩
            exact ⟨m2, List.mem_cons_of_mem m hm2, hmem⟩

/-- Search requests a completed (non-crashing) run sends, in order. -/
def searchEffects (w : World) (env : Env) : List Effect :=
  Effect.searchRequest (TWITTER_SEARCH_QUERY env) (MAX_MENTIONS_TO_FETCH env)
    :: (mentionsOf w env).map
      (fun m => Effect.searchRequest (replyQuery m.conversation_id m.author_id)
        (MAX_COMMENTS_PER_MENTION env))

/-- Directory-creation effect of the Persist step. -/
def dirEffects (w : World) : List Effect :=
  if w.dataDirExists then [] else [Effect.mkdir "data"]

theorem run_analysis_no_crash (w : World) (env : Env)
    (hnc : runHasFetchCrash w env = false) :
    run_analysis w env =
      if mentionsOf w env = [] then
        (RunOutcome.noMentions,
          [Effect.searchRequest (TWITTER_SEARCH_QUERY env) (MAX_MENTIONS_TO_FETCH env)])
      else if accumulatedRows w env = [] then
        (RunOutcome.noComments, searchEffects w env)
      else
        match w.writeResult with
        | Except.ok _ =>
            (RunOutcome.savedToFile (accumulatedRows w env),
              searchEffects w env ++ dirEffects w
                ++ [Effect.writeCsv OUTPUT_CSV_FILE (accumulatedRows w env)])
        | Except.error _ =>
            (RunOutcome.shownOnConsole (accumulatedRows w env),
              searchEffects w env ++ dirEffects w
                ++ [Effect.writeCsv OUTPUT_CSV_FILE (accumulatedRows w env)]) := by
  simp only [runHasFetchCrash, Bool.or_eq_false_iff] at hnc
  obtain ⟨h1, h2⟩ := hnc
  rw [List.any_eq_false] at h2
  cases hs : w.search (TWITTER_SEARCH_QUERY env) (MAX_MENTIONS_TO_FETCH env) with
  | tweepyExc msg => rw [hs] at h1; simp [tweepyCrash] at h1
  | otherExc msg =>
      have hm : mentionsOf w env = [] := by simp [mentionsOf, get_mentions, hs]
      rw [if_pos hm]
      simp [run_analysis, get_mentions, hs]
  | ok page =>
      have hm : mentionsOf w env = page := by simp [mentionsOf, get_mentions, hs]
      have hrows : accumulatedRows w env
          = (page.map (fun m => (commentsFor w env m).map (analyzeComment w m))).flatten := by
        rw [accumulatedRows, hm]
      have hpm := processMentions_no_crash w env page (by
        intro m hmem
        have := h2 m (by rw [hm]; exact hmem)
        simpa using this)
      by_cases hpe : page = []
      · rw [if_pos (by rw [hm, hpe])]
        subst hpe
        simp [run_analysis, get_mentions, hs]
      · rw [if_neg (by rw [hm]; exact hpe)]
        have hne : page.isEmpty = false := by
          simpa [List.isEmpty_iff] using hpe
        simp only [run_analysis, get_mentions, hs, hne, Bool.false_eq_true, if_false, hpm]
        rw [← hrows]
        by_cases hre : accumulatedRows w env = []
        · rw [if_pos hre, hre]
          simp [searchEffects, hm]
        · rw [if_neg hre]
          have hrne : accumulatedRows w env ≠ [] := hre
          rw [show (accumulatedRows w env).isEmpty = false by
            simpa [List.isEmpty_iff] using hrne]
          cases hw : w.writeResult <;>
            simp [searchEffects, dirEffects, hm]

theorem mem_accumulatedRows_iff (w : World) (env : Env) (row : AnalyzedRow) :
    row ∈ accumulatedRows w env
      ↔ ∃ m ∈ mentionsOf w env, ∃ c ∈ commentsFor w env m, analyzeComment w m c = row := by
  simp [accumulatedRows, List.mem_flatten]

theorem commentsFor_id_ne (w : World) (env : Env) (m c : Tweet)
    (h : c ∈ commentsFor w env m) : c.id ≠ m.id := by
  unfold commentsFor get_comments_on_tweet at h
  cases hs : w.search (replyQuery m.conversation_id m.author_id) (MAX_COMMENTS_PER_MENTION env) with
  | ok replies =>
      simp only [hs] at h
      exact ((mem_replyFilter_iff m.id replies c).1 h).2
  | tweepyExc msg => simp [hs] at h
  | otherExc msg => simp [hs] at h

theorem normalizeSentiment_cases (s : String) :
    normalizeSentiment s = "positive" ∨ normalizeSentiment s = "negative"
      ∨ normalizeSentiment s = "neutral" := by
  unfold normalizeSentiment
  split_ifs with h1 h2 h3 h4
  · exact Or.inl rfl
  · exact Or.inr (Or.inl rfl)
  · exact Or.inr (Or.inr rfl)
  · simp only [Bool.or_eq_true, beq_iff_eq] at h4
    rcases h4 with (h | h) | h <;> subst h <;> simp
  · exact Or.inr (Or.inr rfl)

/-! ## Concrete fixtures -/

/-- Default environment: none of the three variables set. -/
def envDefault : Env := ⟨none, none, none⟩

/-- A mention tweet by author `A1`. -/
def mentionT1 : Tweet := ⟨"T1", "landed at the airport", "A1", "C1", "2024-01-01"⟩

/-- A reply in mention `T1`'s conversation authored by the mention's own
author `A1` (a near-match the query-level exclusion failed to drop). -/
def selfReply : Tweet := ⟨"R1", "thanks everyone", "A1", "C1", "2024-01-02"⟩

/-- World whose conversation page for `T1` contains only `selfReply`. -/
def wSelfAuthoredReply : World where
  search := fun q _ =>
    if q == TWITTER_SEARCH_QUERY envDefault then SearchOutcome.ok [mentionT1]
    else SearchOutcome.ok [selfReply]
  classify := fun _ => Except.ok "positive"
  dataDirExists := true
  writeResult := Except.ok ()

/-- A mention tweet by author `A2`. -/
def mentionT2 : Tweet := ⟨"T2", "love this airport", "A2", "C2", "2024-02-01"⟩

/-- A genuine reply to `T2` by a third author. -/
def replyR2 : Tweet := ⟨"R2", "totally agree", "B2", "C2", "2024-02-02"⟩

/-- World where every classifier call raises (quota error). -/
def wClassifierFails : World where
  search := fun q _ =>
    if q == TWITTER_SEARCH_QUERY envDefault then SearchOutcome.ok [mentionT2]
    else SearchOutcome.ok [replyR2]
  classify := fun _ => Except.error "quota exceeded"
  dataDirExists := true
  writeResult := Except.ok ()

/-- World where the CSV write raises `IOError`. -/
def wWriteFails : World where
  search := fun q _ =>
    if q == TWITTER_SEARCH_QUERY envDefault then SearchOutcome.ok [mentionT2]
    else SearchOutcome.ok [replyR2]
  classify := fun _ => Except.ok "positive"
  dataDirExists := true
  writeResult := Except.error "disk full"

/-- World where the mention search itself raises a `TweepyException`. -/
def wTweepySearch : World where
  search := fun _ _ => SearchOutcome.tweepyExc "401 Unauthorized"
  classify := fun _ => Except.ok "positive"
  dataDirExists := true
  writeResult := Except.ok ()

/-- World where the mention search raises a generic (non-Tweepy) exception. -/
def wOtherExc : World where
  search := fun _ _ => SearchOutcome.otherExc "ConnectionError"
  classify := fun _ => Except.ok "positive"
  dataDirExists := true
  writeResult := Except.ok ()

/-- World where the comments fetch for `T1` raises a `TweepyException`
while `T2`, later on the same page, has a perfectly good reply. -/
def wOneFails : World where
  search := fun q _ =>
    if q == TWITTER_SEARCH_QUERY envDefault then SearchOutcome.ok [mentionT1, mentionT2]
    else if q == replyQuery mentionT1.conversation_id mentionT1.author_id then
      SearchOutcome.tweepyExc "http 500"
    else SearchOutcome.ok [replyR2]
  classify := fun _ => Except.ok "positive"
  dataDirExists := true
  writeResult := Except.ok ()

/-- World with one mention whose comments fetch raises a `TweepyException`:
zero rows are ever built, yet the run aborts abnormally. -/
def wCommentsCrash : World where
  search := fun q _ =>
    if q == TWITTER_SEARCH_QUERY envDefault then SearchOutcome.ok [mentionT1]
    else SearchOutcome.tweepyExc "429 Too Many Requests"
  classify := fun _ => Except.ok "positive"
  dataDirExists := false
  writeResult := Except.ok ()

/-! ## Claims -/

/-- Claim C2: on every raw classifier string, `analyze_sentiment` computes
exactly the spec's ordered first-match algorithm on the lowercased and
trimmed string, and the exact inputs "positive", "negative", "neutral" map
to themselves. -/
theorem c2_normalizer_matches_spec :
    (∀ raw, analyze_sentiment (Except.ok raw) = specNormalizeSentiment raw) ∧
    analyze_sentiment (Except.ok "positive") = "positive" ∧
    analyze_sentiment (Except.ok "negative") = "negative" ∧
    analyze_sentiment (Except.ok "neutral") = "neutral" := by
  refine ⟨fun raw => ?_, by decide, by decide, by decide⟩
  simp only [analyze_sentiment, specNormalizeSentiment, normalizeSentiment, pyStrip_pyLower]

/-- Claim C5: the classification step can only produce the four labels
"positive", "negative", "neutral", "error", so every accumulated row's
sentiment field is one of them. -/
theorem c5_sentiment_label_invariant (w : World) (env : Env) :
    (∀ result, analyze_sentiment result = "positive" ∨ analyze_sentiment result = "negative"
      ∨ analyze_sentiment result = "neutral" ∨ analyze_sentiment result = "error") ∧
    (∀ row ∈ accumulatedRows w env,
      row.sentiment = "positive" ∨ row.sentiment = "negative"
        ∨ row.sentiment = "neutral" ∨ row.sentiment = "error") := by
  have hres : ∀ result, analyze_sentiment result = "positive"
      ∨ analyze_sentiment result = "negative"
      ∨ analyze_sentiment result = "neutral" ∨ analyze_sentiment result = "error" := by
    intro result
    cases result with
    | error e => exact Or.inr (Or.inr (Or.inr rfl))
    | ok raw =>
        rcases normalizeSentiment_cases (pyLower (pyStrip raw)) with h | h | h
        · exact Or.inl h
        · exact Or.inr (Or.inl h)
        · exact Or.inr (Or.inr (Or.inl h))
  refine ⟨hres, fun row hrow => ?_⟩
  rcases (mem_accumulatedRows_iff w env row).1 hrow with ⟨m, hm, c, hc, rfl⟩
  exact hres (w.classify c.text)

/-- Claim C7: for every target id and candidate list, the reply filter
returns exactly the subsequence of candidates whose id differs from the
target id, in source order, with no other drop, reorder or deduplication. -/
theorem c7_reply_filter_exact (tweet_id : String) (candidates : List Tweet) :
    replyFilter tweet_id candidates = candidates.filter (fun r => r.id != tweet_id) ∧
    (∀ r, r ∈ replyFilter tweet_id candidates ↔ r ∈ candidates ∧ r.id ≠ tweet_id) ∧
    List.Sublist (replyFilter tweet_id candidates) candidates := by
  refine ⟨replyFilter_eq_filter tweet_id candidates,
    fun r => mem_replyFilter_iff tweet_id candidates r, ?_⟩
  rw [replyFilter_eq_filter]
  exact List.filter_sublist candidates

/-- Claim C1, counterexample: the filter does not re-verify the author
exclusion locally.  In `wSelfAuthoredReply` the conversation page for `T1`
contains a reply authored by the mention's own author, and that reply is
emitted as an output row whose comment author equals the mention's author. -/
theorem c1_counterexample_author_not_reverified :
    mentionsOf wSelfAuthoredReply envDefault = [mentionT1] ∧
    commentsFor wSelfAuthoredReply envDefault mentionT1 = [selfReply] ∧
    selfReply.author_id = mentionT1.author_id ∧
    (∃ row ∈ accumulatedRows wSelfAuthoredReply envDefault,
      row.comment_author_id = mentionT1.author_id) := by
  decide

/-- Claim C1 as amended: every comment contributing a row satisfies the
first condition of the invariant — its id differs from the mention's tweet
id.  The author exclusion is enforced only through the `-from:` clause of
the query sent to the Source and is not re-verified locally, so a page
containing posts authored by the mention's author does produce rows
authored by that author. -/
theorem c1_amended_rows_never_the_mention_itself (w : World) (env : Env)
    (row : AnalyzedRow) (h : row ∈ accumulatedRows w env) :
    row.comment_id ≠ row.mention_tweet_id := by
  rcases (mem_accumulatedRows_iff w env row).1 h with ⟨m, hm, c, hc, rfl⟩
  simpa [analyzeComment] using commentsFor_id_ne w env m c hc

/-- Witness for the amended C1 at the concrete fixture. -/
theorem c1_amended_witness :
    (analyzeComment wSelfAuthoredReply mentionT1 selfReply).comment_id
      ≠ (analyzeComment wSelfAuthoredReply mentionT1 selfReply).mention_tweet_id :=
  c1_amended_rows_never_the_mention_itself wSelfAuthoredReply envDefault
    (analyzeComment wSelfAuthoredReply mentionT1 selfReply) (by decide)

/-- Claim C3 is right about the intent but the code has a bug: a raised
`tweepy.TweepyException` is not recovered to the empty result.  The
`except tweepy.TweepyException` handlers evaluate `if response and
response.errors` with the local `response` unbound (the search call that
raised it was its only assignment), so they raise `UnboundLocalError`,
which propagates and aborts the run.  Evaluated here: a Tweepy failure of
the mention search propagates instead of yielding the empty page; a
generic exception IS recovered to the empty page (the claim holds on that
path); and one mention's Tweepy failure crashes the whole run, so the
later mention `T2` — whose page holds a good reply — is never processed
and no row at all is emitted. -/
theorem c3_code_bug_unbound_local :
    (get_mentions wTweepySearch (TWITTER_SEARCH_QUERY envDefault)
        (MAX_MENTIONS_TO_FETCH envDefault)).1 = Except.error unboundLocalResponse ∧
    (run_analysis wTweepySearch envDefault).1 = RunOutcome.crashed unboundLocalResponse ∧
    (get_mentions wOtherExc (TWITTER_SEARCH_QUERY envDefault)
        (MAX_MENTIONS_TO_FETCH envDefault)).1 = Except.ok [] ∧
    (run_analysis wOtherExc envDefault).1 = RunOutcome.noMentions ∧
    mentionsOf wOneFails envDefault = [mentionT1, mentionT2] ∧
    commentsFor wOneFails envDefault mentionT2 = [replyR2] ∧
    (run_analysis wOneFails envDefault).1 = RunOutcome.crashed unboundLocalResponse :=
  ⟨rfl, rfl, rfl, rfl, rfl, rfl, rfl⟩

/-- Claim C4, counterexample: no floor of 10 is enforced.  With no
environment overrides the mentions bound defaults to 5, and the request
sent to the Source carries that bound, which is below 10. -/
theorem c4_counterexample_no_floor :
    MAX_MENTIONS_TO_FETCH envDefault = 5 ∧
    Effect.searchRequest (TWITTER_SEARCH_QUERY envDefault) 5
      ∈ (run_analysis wSelfAuthoredReply envDefault).2 ∧
    ¬ (10 ≤ (5 : Int)) := by
  decide

/-- Claim C4 as amended: the bounds passed to the Source's search requests
are exactly the environment-configured values — `MAX_MENTIONS_TO_FETCH`
(default 5) for the mention search and `MAX_COMMENTS_PER_MENTION`
(default 10) for every comments search — with no floor applied, so the
mentions bound can be below 10.  This holds on every path of the run,
crashing paths included. -/
theorem c4_amended_bounds_are_env_values (w : World) (env : Env) (q : String) (n : Int)
    (h : Effect.searchRequest q n ∈ (run_analysis w env).2) :
    n = MAX_MENTIONS_TO_FETCH env ∨ n = MAX_COMMENTS_PER_MENTION env := by
  have hmention : Effect.searchRequest q n
        ∈ (get_mentions w (TWITTER_SEARCH_QUERY env) (MAX_MENTIONS_TO_FETCH env)).2 →
      n = MAX_MENTIONS_TO_FETCH env := by
    intro hm
    rw [get_mentions_snd] at hm
    simp only [List.mem_singleton, Effect.searchRequest.injEq] at hm
    exact hm.2
  have hcomments : ∀ ms : List Tweet, Effect.searchRequest q n
        ∈ (processMentions w env ms).2 → n = MAX_COMMENTS_PER_MENTION env := by
    intro ms hm
    rcases mem_processMentions_effects w env ms (Effect.searchRequest q n) hm with ⟨m, _, hmem⟩
    rw [processMention_snd] at hmem
    simp only [List.mem_singleton, Effect.searchRequest.injEq] at hmem
    exact hmem.2
  simp only [run_analysis] at h
  cases hs : (get_mentions w (TWITTER_SEARCH_QUERY env) (MAX_MENTIONS_TO_FETCH env)).1 with
  | error exc =>
      rw [hs] at h
      simp only at h
      exact Or.inl (hmention h)
  | ok mentions =>
      rw [hs] at h
      simp only at h
      by_cases he : mentions.isEmpty
      · rw [if_pos he] at h
        exact Or.inl (hmention h)
      · rw [if_neg he] at h
        split at h
        next exc effs heq =>
          simp only at h
          rcases List.mem_append.1 h with h1 | h1
          · exact Or.inl (hmention h1)
          · exact Or.inr (hcomments mentions (by rw [heq]; exact h1))
        next rows effs heq =>
          by_cases hre : rows.isEmpty
          · rw [if_pos hre] at h
            simp only at h
            rcases List.mem_append.1 h with h1 | h1
            · exact Or.inl (hmention h1)
            · exact Or.inr (hcomments mentions (by rw [heq]; exact h1))
          · rw [if_neg hre] at h
            have hsplit : Effect.searchRequest q n
                ∈ (get_mentions w (TWITTER_SEARCH_QUERY env) (MAX_MENTIONS_TO_FETCH env)).2
                    ++ effs
                  ++ (if w.dataDirExists then [] else [Effect.mkdir "data"])
                  ++ [Effect.writeCsv OUTPUT_CSV_FILE rows] := by
              cases hw : w.writeResult <;> rw [hw] at h <;> simpa using h
            rcases List.mem_append.1 hsplit with h1 | h1
            · rcases List.mem_append.1 h1 with h2 | h2
              · rcases List.mem_append.1 h2 with h3 | h3
                · exact Or.inl (hmention h3)
                · exact Or.inr (hcomments mentions (by rw [heq]; exact h3))
              · by_cases hd : w.dataDirExists <;> simp [hd] at h2
            · simp at h1

/-- Witness for the amended C4 at the concrete fixture: the mention-search
request's bound is the configured mentions bound. -/
theorem c4_amended_witness :
    (5 : Int) = MAX_MENTIONS_TO_FETCH envDefault
      ∨ (5 : Int) = MAX_COMMENTS_PER_MENTION envDefault :=
  c4_amended_bounds_are_env_values wSelfAuthoredReply envDefault
    (TWITTER_SEARCH_QUERY envDefault) 5 (by decide)

/-- Claim C6: when the classifier call raises, the comment's classification
result is the label "error" (the keyword normalization is bypassed by the
exception handler), the row is still accumulated, and every other fetched
comment of every mention is accumulated as well. -/
theorem c6_classifier_error_recovered (w : World) (env : Env) (m c : Tweet) (e : String)
    (hm : m ∈ mentionsOf w env) (hc : c ∈ commentsFor w env m)
    (he : w.classify c.text = Except.error e) :
    (analyzeComment w m c).sentiment = "error" ∧
    analyzeComment w m c ∈ accumulatedRows w env ∧
    (∀ m2 ∈ mentionsOf w env, ∀ c2 ∈ commentsFor w env m2,
      analyzeComment w m2 c2 ∈ accumulatedRows w env) := by
  have hmem : ∀ m2 ∈ mentionsOf w env, ∀ c2 ∈ commentsFor w env m2,
      analyzeComment w m2 c2 ∈ accumulatedRows w env := by
    intro m2 hm2 c2 hc2
    exact (mem_accumulatedRows_iff w env _).2 ⟨m2, hm2, c2, hc2, rfl⟩
  refine ⟨?_, hmem m hm c hc, hmem⟩
  simp [analyzeComment, he, analyze_sentiment]

/-- Witness for C6 at the concrete fixture: the classifier raises for the
only comment, and its row is emitted with sentiment "error". -/
theorem c6_witness :
    (analyzeComment wClassifierFails mentionT2 replyR2).sentiment = "error" ∧
    analyzeComment wClassifierFails mentionT2 replyR2
      ∈ accumulatedRows wClassifierFails envDefault := by
  have h := c6_classifier_error_recovered wClassifierFails envDefault mentionT2 replyR2
    "quota exceeded" (by decide) (by decide) rfl
  exact ⟨h.1, h.2.1⟩

/-- Claim C8: a raw classifier string that contains both "positive" and
"negative" after stripping and lowercasing is normalized to "neutral" — in
particular neither to "positive" nor to "negative". -/
theorem c8_ambiguous_input_neutral (raw : String)
    (hp : pyIn "positive" (pyLower (pyStrip raw)) = true)
    (hn : pyIn "negative" (pyLower (pyStrip raw)) = true) :
    analyze_sentiment (Except.ok raw) ≠ "positive" ∧
    analyze_sentiment (Except.ok raw) ≠ "negative" ∧
    analyze_sentiment (Except.ok raw) = "neutral" := by
  have heq : analyze_sentiment (Except.ok raw) = "neutral" := by
    have hs : analyze_sentiment (Except.ok raw)
        = normalizeSentiment (pyLower (pyStrip raw)) := rfl
    rw [hs]
    generalize pyLower (pyStrip raw) = s at hp hn
    unfold normalizeSentiment
    rw [if_neg (by simp [hp, hn]), if_neg (by simp [hp, hn])]
    by_cases h3 : pyIn "neutral" s = true
    · rw [if_pos h3]
    · rw [if_neg h3]
      by_cases h4 : (s == "positive" || s == "negative" || s == "neutral") = true
      · rw [if_pos h4]
        simp only [Bool.or_eq_true, beq_iff_eq] at h4
        rcases h4 with (h | h) | h
        · subst h; exact absurd hn (by decide)
        · subst h; exact absurd hp (by decide)
        · subst h; rfl
      · rw [if_neg h4]
  exact ⟨by rw [heq]; decide, by rw [heq]; decide, heq⟩

/-- Witness for C8 at a concrete ambiguous classifier output. -/
theorem c8_witness :
    analyze_sentiment (Except.ok "Both positive and negative tones") = "neutral" :=
  (c8_ambiguous_input_neutral "Both positive and negative tones"
    (by decide) (by decide)).2.2

/-- Claim C9: when a run completes its fetches (exactly the runs that can
reach the Persist step — no search call raised a `TweepyException`), has
accumulated at least one row, and the CSV write fails, the run ends in the
console-fallback outcome carrying all accumulated rows — nothing is lost
and the run is not aborted. -/
theorem c9_write_failure_console_fallback (w : World) (env : Env) (e : String)
    (hnc : runHasFetchCrash w env = false)
    (hrows : accumulatedRows w env ≠ [])
    (hw : w.writeResult = Except.error e) :
    (run_analysis w env).1 = RunOutcome.shownOnConsole (accumulatedRows w env) := by
  have h1 : mentionsOf w env ≠ [] := by
    intro h
    exact hrows (by simp [accumulatedRows, h])
  rw [run_analysis_no_crash w env hnc, if_neg h1, if_neg hrows, hw]

/-- Witness for C9 at the concrete fixture with a failing write. -/
theorem c9_witness :
    (run_analysis wWriteFails envDefault).1
      = RunOutcome.shownOnConsole (accumulatedRows wWriteFails envDefault) :=
  c9_write_failure_console_fallback wWriteFails envDefault "disk full"
    (by decide) (by decide) rfl

/-- Claim C10 is right about the intended zero-row behavior, but the code
can also reach zero rows through the fetch-crash bug, and then it does not
terminate normally.  Evaluated at the failing input `wCommentsCrash` (one
mention whose comments fetch raises a `TweepyException`): zero rows are
accumulated and the filesystem is indeed untouched — no mkdir, no write
attempt — yet the run aborts with the propagating `UnboundLocalError`
instead of terminating normally.  For contrast, the genuinely guarded
zero-row path is also evaluated: with an empty mention page the run ends
normally in the no-mentions outcome, again with no filesystem effect. -/
theorem c10_code_bug_crash_without_rows :
    accumulatedRows wCommentsCrash envDefault = [] ∧
    (run_analysis wCommentsCrash envDefault).1 = RunOutcome.crashed unboundLocalResponse ∧
    (∀ e ∈ (run_analysis wCommentsCrash envDefault).2, e.isFsEffect = false) ∧
    accumulatedRows wOtherExc envDefault = [] ∧
    (run_analysis wOtherExc envDefault).1 = RunOutcome.noMentions ∧
    (∀ e ∈ (run_analysis wOtherExc envDefault).2, e.isFsEffect = false) := by
  decide
